import Mathlib

/-!
Verification of the metadata script retriever
(`google_compute_engine/metadata_scripts/script_retriever.py`).

The Python module is embedded shallowly:

* Exceptions are modelled by the `PyExc` type; the three transient-network
  fault kinds caught by the retry decorator are the retryable ones.
* A network operation is modelled as a function `Nat → Attempt α` giving the
  outcome of its k-th invocation (0-indexed); the retry decorator
  `_RetryOnUnavailable` becomes `RetryOnUnavailable`, returning a `RunResult`
  that records the value returned or exception raised together with the
  number of calls made and the total time slept.
* Temporary files created by `tempfile.NamedTemporaryFile(dir=dest_dir)` are
  modelled by paths `⟨dest_dir, n⟩` where `n` is a fresh counter value,
  reflecting the unique-name guarantee; the file system is an association
  list from paths to contents, newest entry first.
* The retriever's state (`RState`) carries the cached token, the file store,
  the fresh-name counter, the number of token queries issued to the metadata
  watcher, and the number of warnings logged.
* The external collaborators (metadata watcher token query, `urlopen`,
  `urlretrieve`) are an oracle (`Network`); the full metadata tree returned
  by `watcher.GetMetadata()` is a separate parameter of `GetScripts`.
-/

namespace ScriptRetriever

/-- Python exception values. The first three constructors are the transient
kinds caught by the retry decorator (`httpclient.HTTPException`,
`socket.error`, `urlerror.URLError`); `otherError` stands for any other
exception. -/
inductive PyExc where
  | httpException (msg : String)
  | socketError (msg : String)
  | urlError (msg : String)
  | otherError (msg : String)
deriving DecidableEq

/-- The exception kinds listed in the `except` clause of the retry
decorator's wrapper and of `_DownloadUrl`. -/
def isRetryable : PyExc → Bool
  | .httpException _ => true
  | .socketError _ => true
  | .urlError _ => true
  | .otherError _ => false

/-- Outcome of one invocation of a wrapped network operation: it either
returns a value or raises an exception. -/
inductive Attempt (α : Type) where
  | ok (v : α)
  | raise (e : PyExc)
deriving DecidableEq

/-- Result of running a function under the retry decorator: the value
returned or the exception raised, together with the number of invocations
made and the total time slept (seconds). `raisedNone` models the
`raise final_exception` statement executing with `final_exception = None`
(unreachable from the decorator's entry point, which supplies fuel 3). -/
inductive RunResult (α : Type) where
  | returned (v : α) (calls slept : Nat)
  | raised (e : PyExc) (calls slept : Nat)
  | raisedNone (calls slept : Nat)
deriving DecidableEq

/-- Number of invocations of the wrapped function recorded in a run. -/
def RunResult.calls {α : Type} : RunResult α → Nat
  | .returned _ c _ => c
  | .raised _ c _ => c
  | .raisedNone c _ => c

/-- The loop body of the retry decorator's `Wrapper`: `i` is the index of
the next invocation, `fuel` the number of loop iterations left (the source
iterates over `range(3)`), `finalExc` the current `final_exception`, and
`slept` the time slept so far.  A retryable exception is recorded and
followed by `time.sleep(5)` and `continue`; any other exception propagates
immediately; when the loop ends, `final_exception` is raised. -/
def retryAux {α : Type} (f : Nat → Attempt α) (i fuel : Nat)
    (finalExc : Option PyExc) (slept : Nat) : RunResult α :=
  match fuel with
  | 0 =>
    match finalExc with
    | some e => .raised e i slept
    | none => .raisedNone i slept
  | fuel' + 1 =>
    match f i with
    | .ok v => .returned v (i + 1) slept
    | .raise e =>
      if isRetryable e then retryAux f (i + 1) fuel' (some e) (slept + 5)
      else .raised e (i + 1) slept

/-- The decorator `_RetryOnUnavailable` applied: run the wrapped operation with at most 3
invocations. -/
def RetryOnUnavailable {α : Type} (f : Nat → Attempt α) : RunResult α :=
  retryAux f 0 3 none 0

/-- Path of a staged script file: the destination directory together with
the unique fresh index allocated by `tempfile.NamedTemporaryFile`. -/
structure Path where
  dir : String
  idx : Nat
deriving DecidableEq

/-- External collaborators of the retriever. `tokenQuery recursive retry`
is `watcher.GetMetadata(token_metadata_key, recursive=…, retry=…)`, returning
the parsed token response (a string-to-string mapping) or `none`;
`authFetch url k` is the outcome of the k-th call of
`urlrequest.urlopen` on a request for `url` (the response body, UTF-8
decoded); `retrieveFetch url k` is the outcome of the k-th call of
`urlretrieve.urlretrieve(url, dest)` (the content it writes to `dest`). -/
structure Network where
  tokenQuery : Bool → Bool → Option (List (String × String))
  authFetch : String → Nat → Attempt String
  retrieveFetch : String → Nat → Attempt String

/-- Mutable state of a `ScriptRetriever` instance plus the observable
effects it produces: the cached `token`, the staged files (path ↦ content,
newest write first), the fresh-name counter backing temp-file allocation,
the number of token queries issued to the watcher, and the number of
warning messages logged. -/
structure RState where
  token : Option String
  files : List (Path × String)
  tempCounter : Nat
  tokenQueries : Nat
  warnings : Nat
deriving DecidableEq

/-- A fresh retriever state: no cached token, no files staged. -/
def initState : RState :=
  { token := none, files := [], tempCounter := 0, tokenQueries := 0,
    warnings := 0 }

/-- Current content of the file at `p` (newest write wins). -/
def lookupFile : List (Path × String) → Path → Option String
  | [], _ => none
  | (q, c) :: rest, p => if p = q then some c else lookupFile rest p

/-- A call of `tempfile.NamedTemporaryFile(dir=destDir, delete=False)` followed by
writing `content` (the plain reservations in the download functions pass
`content = ""`, matching the empty file left by an immediate `close()`). -/
def mkTempFile (destDir content : String) (s : RState) : Path × RState :=
  let p : Path := ⟨destDir, s.tempCounter⟩
  (p, { s with files := (p, content) :: s.files,
                tempCounter := s.tempCounter + 1 })

/-- A call of `open(dest, 'w')` followed by writing `content`. -/
def writeFile (s : RState) (p : Path) (content : String) : RState :=
  { s with files := (p, content) :: s.files }

/-- A call of `logger.warning(...)`. -/
def warn (s : RState) : RState := { s with warnings := s.warnings + 1 }

/-- Python truthiness of the cached token (`if not self.token`): falsy when
`None` or the empty string. -/
def strFalsy : Option String → Bool
  | none => true
  | some v => v = ""

/-- Python truthiness of the token response (`if not response`): falsy when
`None` or an empty mapping. -/
def respFalsy : Option (List (String × String)) → Bool
  | none => true
  | some [] => true
  | some (_ :: _) => false

/-- Python `dict.get(key)` on a string-to-string mapping. -/
def lookupStr : List (String × String) → String → Option String
  | [], _ => none
  | (k, v) :: rest, key => if key = k then some v else lookupStr rest key

/-- The call `_UrlOpenWithRetry(request)` for a request on `url`. -/
def UrlOpenWithRetry (net : Network) (url : String) : RunResult String :=
  RetryOnUnavailable (net.authFetch url)

/-- The call `_UrlRetrieveWithRetry(url, dest)`. -/
def UrlRetrieveWithRetry (net : Network) (url : String) : RunResult String :=
  RetryOnUnavailable (net.retrieveFetch url)

/-- The method `_DownloadUrl(url, dest_dir)`: reserve a temp file, fetch to it with
retry; on success return the path (the fetched content is in the file); on
any exception log a warning (the source logs a different message for the
three transient kinds and for other exceptions) and return `None`. -/
def DownloadUrl (net : Network) (url destDir : String) (s : RState) :
    Option Path × RState :=
  let (dest, s1) := mkTempFile destDir "" s
  match UrlRetrieveWithRetry net url with
  | .returned content _ _ => (some dest, writeFile s1 dest content)
  | .raised _ _ _ => (none, warn s1)
  | .raisedNone _ _ => (none, warn s1)

/-- The `try`-block of `_DownloadAuthUrl` after the token has been dealt
with: issue the authenticated fetch with retry; on success write the body
into the reserved file `dest` and return its path; on any exception log a
warning and return `None`. -/
def authUrlFetch (net : Network) (url : String) (dest : Path) (s : RState) :
    Option Path × RState :=
  match UrlOpenWithRetry net url with
  | .returned content _ _ => (some dest, writeFile s dest content)
  | .raised _ _ _ => (none, warn s)
  | .raisedNone _ _ => (none, warn s)

/-- The method `_DownloadAuthUrl(url, dest_dir)`: reserve a temp file; if no token is
cached, query the watcher once (`recursive=False, retry=False`); on an
empty/absent response fall back to `_DownloadUrl`; otherwise cache
`'%s %s' % (token_type, access_token)` and proceed with the authenticated
fetch. -/
def DownloadAuthUrl (net : Network) (url destDir : String) (s : RState) :
    Option Path × RState :=
  let (dest, s1) := mkTempFile destDir "" s
  if strFalsy s1.token then
    let response := net.tokenQuery false false
    let s2 := { s1 with tokenQueries := s1.tokenQueries + 1 }
    if respFalsy response then
      DownloadUrl net url destDir s2
    else
      let r := response.getD []
      let tok := (lookupStr r "token_type").getD "" ++ " " ++
        (lookupStr r "access_token").getD ""
      authUrlFetch net url dest { s2 with token := some tok }
  else
    authUrlFetch net url dest s1

/-- Prefix test over characters: matching a literal piece of a
regular expression. -/
def isPrefixList : List Char → List Char → Bool
  | [], _ => true
  | _ :: _, [] => false
  | c :: cs, d :: ds => c == d && isPrefixList cs ds

/-- Drop a literal prefix, returning the remainder when it matches. -/
def dropPrefixList : List Char → List Char → Option (List Char)
  | [], l => some l
  | _ :: _, [] => none
  | c :: cs, d :: ds => if c == d then dropPrefixList cs ds else none

/-- Character class `[a-z0-9]` (first and last character of the bucket
pattern). -/
def isLowerDigit (c : Char) : Bool :=
  ('a' ≤ c && c ≤ 'z') || ('0' ≤ c && c ≤ '9')

/-- Character class `[-_.a-z0-9]` (inner characters of the bucket
pattern). -/
def isBucketMid (c : Char) : Bool :=
  isLowerDigit c || c == '-' || c == '_' || c == '.'

/-- Tail of the bucket pattern after the first character: `[-_.a-z0-9]*`
followed by a final `[a-z0-9]`. -/
def matchesBucketTail : List Char → Bool
  | [] => false
  | [c] => isLowerDigit c
  | c :: rest => isBucketMid c && matchesBucketTail rest

/-- The bucket pattern `[a-z0-9][-_.a-z0-9]*[a-z0-9]` (note: it requires at
least two characters). -/
def matchesBucket : List Char → Bool
  | [] => false
  | c :: rest => isLowerDigit c && matchesBucketTail rest

/-- The object pattern `[^\*\?]+`: any non-empty string without wildcard
characters. -/
def matchesObj (l : List Char) : Bool :=
  !l.isEmpty && l.all (fun c => !(c == '*') && !(c == '?'))

/-- The header pattern `http[s]?://`: strip it, returning the remainder.
The two alternatives (`https://`, `http://`) are mutually exclusive, so
trying the `s` branch first is equivalent to the regex's backtracking. -/
def stripHeader (l : List Char) : Option (List Char) :=
  match dropPrefixList "http".data l with
  | none => none
  | some r =>
    match dropPrefixList "s://".data r with
    | some r' => some r'
    | none => dropPrefixList "://".data r

/-- One candidate split of the virtual-hosted regex body
`bucket\.storage\.googleapis\.com/obj` at position `i`. -/
def vhostSplitAt (r : List Char) (i : Nat) : Bool :=
  matchesBucket (r.take i) &&
    (match dropPrefixList ".storage.googleapis.com/".data (r.drop i) with
     | some o => matchesObj o
     | none => false)

/-- The anchored regex
`\Ahttp[s]?://bucket\.storage\.googleapis\.com/obj\Z` of the first
`gs_regex`; the regex engine's backtracking search for a bucket/object
split is the existential over split positions. -/
def matchesVHost (l : List Char) : Bool :=
  match stripHeader l with
  | none => false
  | some r => (List.range (r.length + 1)).any (vhostSplitAt r)

/-- One candidate split of the path-style regex tail `bucket/obj` at
position `i`. -/
def pathSplitAt (r : List Char) (i : Nat) : Bool :=
  matchesBucket (r.take i) &&
    (match r.drop i with
     | '/' :: o => matchesObj o
     | _ => false)

/-- The anchored regex
`\Ahttp[s]?://(commondata)?storage\.googleapis\.com/bucket/obj\Z` of the
second `gs_regex`.  The optional `(commondata)?` group is deterministic:
a string can begin with at most one of `commondatastorage…` and
`storage…`. -/
def matchesPathStyle (l : List Char) : Bool :=
  match stripHeader l with
  | none => false
  | some r =>
    let r' :=
      match dropPrefixList "commondata".data r with
      | some rest => rest
      | none => r
    match dropPrefixList "storage.googleapis.com/".data r' with
    | some rest => (List.range (rest.length + 1)).any (pathSplitAt rest)
    | none => false

/-- The dispatch decision made by `_DownloadScript`: which download
function is called, and with which (possibly rewritten) URL. -/
inductive Route where
  | auth (url : String)
  | plain (url : String)
deriving DecidableEq

/-- The URL classification performed by `_DownloadScript`: a `gs://` URL is
rewritten by `re.sub('^gs://', 'https://storage.googleapis.com/', url)` and
routed to authenticated download; a URL matching either Google Storage
regex is routed to authenticated download unchanged; anything else goes to
plain download. -/
def DownloadScript_route (url : String) : Route :=
  if isPrefixList "gs://".data url.data then
    .auth ⟨"https://storage.googleapis.com/".data ++ url.data.drop 5⟩
  else if matchesVHost url.data then .auth url
  else if matchesPathStyle url.data then .auth url
  else .plain url

/-- The method `_DownloadScript(url, dest_dir)`. -/
def DownloadScript (net : Network) (url destDir : String) (s : RState) :
    Option Path × RState :=
  match DownloadScript_route url with
  | .auth u => DownloadAuthUrl net u destDir s
  | .plain u => DownloadUrl net u destDir s

/-- Python whitespace (`str.lstrip` with no argument), ASCII part. -/
def isPySpace (c : Char) : Bool :=
  c == ' ' || c == '\t' || c == '\n' || c == '\r' ||
    c == '\x0b' || c == '\x0c'

/-- Python `value.lstrip()`: remove leading whitespace, keep the rest verbatim. -/
def lstrip (v : String) : String := ⟨v.data.dropWhile isPySpace⟩

/-- The method `_GetAttributeScripts(attribute_data, dest_dir)` for script type
`scriptType`: stage the inline `<type>-script` value (left-stripped) into a
fresh temp file if present and non-empty, then download the
`<type>-script-url` value if present and non-empty, recording the key with
the download result (possibly `none`, after logging a warning). -/
def GetAttributeScripts (net : Network) (scriptType : String)
    (attributeData : Option (List (String × String))) (destDir : String)
    (s : RState) : List (String × Option Path) × RState :=
  let data := attributeData.getD []
  let key1 := scriptType ++ "-script"
  let (dict1, s1) :=
    match lookupStr data key1 with
    | some v =>
      if v = "" then ([], s)
      else
        let (p, s') := mkTempFile destDir (lstrip v) s
        ([(key1, some p)], s')
    | none => ([], s)
  let key2 := scriptType ++ "-script-url"
  match lookupStr data key2 with
  | some v =>
    if v = "" then (dict1, s1)
    else
      let (r, s2) := DownloadScript net v destDir s1
      (dict1 ++ [(key2, r)], if r.isNone then warn s2 else s2)
  | none => (dict1, s1)

/-- One level of the metadata tree (`metadata_dict['instance']` or
`metadata_dict['project']`): it may or may not carry an `attributes`
mapping. -/
structure MetadataLevel where
  attributes : Option (List (String × String))
deriving DecidableEq

/-- The metadata tree returned by `watcher.GetMetadata()`: the `instance`
and `project` keys may each be absent. -/
structure MetadataTree where
  instanceLevel : Option MetadataLevel
  projectLevel : Option MetadataLevel
deriving DecidableEq

/-- The lookup `metadata_dict['instance']['attributes']` with the `KeyError` handler:
`none` when the watcher returned nothing or either key is missing. -/
def instAttrs (tree : Option MetadataTree) : Option (List (String × String)) :=
  (tree.getD ⟨none, none⟩).instanceLevel.bind (·.attributes)

/-- The lookup `metadata_dict['project']['attributes']` with the `KeyError` handler. -/
def projAttrs (tree : Option MetadataTree) : Option (List (String × String)) :=
  (tree.getD ⟨none, none⟩).projectLevel.bind (·.attributes)

/-- The warning logged when an attributes lookup raises `KeyError`. -/
def attrWarn (dataOpt : Option (List (String × String))) (s : RState) :
    RState :=
  if dataOpt.isNone then warn s else s

/-- The method `GetScripts(dest_dir)`: read the tree, extract both attribute maps
(warning when absent), compute the instance-level script mapping, and
return it unless it is empty, in which case compute and return the
project-level mapping (`a or b` on dictionaries). -/
def GetScripts (net : Network) (tree : Option MetadataTree)
    (scriptType destDir : String) (s : RState) :
    List (String × Option Path) × RState :=
  let s0 := attrWarn (projAttrs tree) (attrWarn (instAttrs tree) s)
  let (d1, s1) := GetAttributeScripts net scriptType (instAttrs tree) destDir s0
  if d1.isEmpty then GetAttributeScripts net scriptType (projAttrs tree) destDir s1
  else (d1, s1)

/-- A network oracle on which every operation fails: the token query yields
nothing and every fetch raises a URL-open fault. -/
def net0 : Network :=
  { tokenQuery := fun _ _ => none,
    authFetch := fun _ _ => .raise (.urlError "unreachable"),
    retrieveFetch := fun _ _ => .raise (.urlError "unreachable") }

/-- A network oracle on which every operation succeeds. -/
def netOk : Network :=
  { tokenQuery := fun _ _ =>
      some [("access_token", "ya29.tok"), ("expires_in", "3599"),
            ("token_type", "Bearer")],
    authFetch := fun _ _ => .ok "echo remote",
    retrieveFetch := fun _ _ => .ok "echo remote" }

/-- A network oracle whose token query yields nothing but whose fetches
succeed. -/
def netOk0 : Network :=
  { tokenQuery := fun _ _ => none,
    authFetch := fun _ _ => .ok "echo remote",
    retrieveFetch := fun _ _ => .ok "echo remote" }

/-- A fetch that raises a transient fault on the first two calls and
succeeds on the third. -/
def attemptsFlaky : Nat → Attempt Nat :=
  fun k => if k < 2 then .raise (.socketError "down") else .ok 7

/-- A fetch that always raises a transient fault. -/
def attemptsFail : Nat → Attempt Nat :=
  fun _ => .raise (.urlError "unavailable")

theorem retryAux_calls_le {α : Type} (f : Nat → Attempt α) :
    ∀ (fuel i : Nat) (exc : Option PyExc) (slept : Nat),
      (retryAux f i fuel exc slept).calls ≤ i + fuel := by
  intro fuel
  induction fuel with
  | zero =>
    intro i exc slept
    cases exc <;> simp only [retryAux, RunResult.calls] <;> omega
  | succ n ih =>
    intro i exc slept
    simp only [retryAux]
    split
    next v heq =>
      simp only [RunResult.calls]
      omega
    next e heq =>
      split
      next hr =>
        exact le_trans (ih (i + 1) (some e) (slept + 5)) (by omega)
      next hr =>
        simp only [RunResult.calls]
        omega

/-- Claim C3: the retry primitive makes at most 3 attempts, sleeping 5
seconds after each failed attempt; it retries only on the retryable
(transient-network) fault kinds, while any other exception propagates
immediately without further attempts; the first successful attempt's value
is returned with no further attempts; and when all 3 attempts raise a
retryable fault, the exception raised is the one from the last (third)
attempt. -/
theorem c3_retry_semantics {α : Type} (f : Nat → Attempt α) (v : α)
    (e e0 e1 e2 : PyExc) :
    (RetryOnUnavailable f).calls ≤ 3 ∧
    (f 0 = .ok v → RetryOnUnavailable f = .returned v 1 0) ∧
    (f 0 = .raise e0 → isRetryable e0 = true → f 1 = .ok v →
      RetryOnUnavailable f = .returned v 2 5) ∧
    (f 0 = .raise e0 → isRetryable e0 = true → f 1 = .raise e1 →
      isRetryable e1 = true → f 2 = .ok v →
      RetryOnUnavailable f = .returned v 3 10) ∧
    (f 0 = .raise e → isRetryable e = false →
      RetryOnUnavailable f = .raised e 1 0) ∧
    (f 0 = .raise e0 → isRetryable e0 = true → f 1 = .raise e →
      isRetryable e = false → RetryOnUnavailable f = .raised e 2 5) ∧
    (f 0 = .raise e0 → isRetryable e0 = true → f 1 = .raise e1 →
      isRetryable e1 = true → f 2 = .raise e2 → isRetryable e2 = true →
      RetryOnUnavailable f = .raised e2 3 15) := by
  refine ⟨retryAux_calls_le f 3 0 none 0, ?_, ?_, ?_, ?_, ?_, ?_⟩
  · intro h0
    simp [RetryOnUnavailable, retryAux, h0]
  · intro h0 hr0 h1
    simp [RetryOnUnavailable, retryAux, h0, hr0, h1]
  · intro h0 hr0 h1 hr1 h2
    simp [RetryOnUnavailable, retryAux, h0, hr0, h1, hr1, h2]
  · intro h0 hr0
    simp [RetryOnUnavailable, retryAux, h0, hr0]
  · intro h0 hr0 h1 hr1
    simp [RetryOnUnavailable, retryAux, h0, hr0, h1, hr1]
  · intro h0 hr0 h1 hr1 h2 hr2
    simp [RetryOnUnavailable, retryAux, h0, hr0, h1, hr1, h2, hr2]

theorem c3_retry_semantics_witness :
    RetryOnUnavailable attemptsFlaky = .returned 7 3 10 ∧
    RetryOnUnavailable attemptsFail = .raised (.urlError "unavailable") 3 15 := by
  constructor
  · exact (c3_retry_semantics attemptsFlaky 7 (.urlError "x")
      (.socketError "down") (.socketError "down")
      (.urlError "x")).2.2.2.1 rfl rfl rfl rfl rfl
  · exact (c3_retry_semantics attemptsFail 0 (.urlError "x")
      (.urlError "unavailable") (.urlError "unavailable")
      (.urlError "unavailable")).2.2.2.2.2.2 rfl rfl rfl rfl rfl rfl

/-- Claim C4: every URL beginning with `gs://` has that prefix replaced by
`https://storage.googleapis.com/` and is routed to authenticated download,
whatever the remainder. -/
theorem c4_gs_rewrite (net : Network) (suffix destDir : String) (s : RState) :
    DownloadScript_route ("gs://" ++ suffix) =
      .auth ("https://storage.googleapis.com/" ++ suffix) ∧
    DownloadScript net ("gs://" ++ suffix) destDir s =
      DownloadAuthUrl net ("https://storage.googleapis.com/" ++ suffix)
        destDir s := by
  exact ⟨rfl, rfl⟩

/-- Claim C2 counterexample: the three URLs named by the claim all have the
single-character bucket `b`, which the bucket pattern
`[a-z0-9][-_.a-z0-9]*[a-z0-9]` (two characters minimum) rejects, so
`_DownloadScript` routes each of them to plain download, not authenticated
download. -/
theorem c2_counterexample :
    DownloadScript_route "http://b.storage.googleapis.com/o" =
      .plain "http://b.storage.googleapis.com/o" ∧
    DownloadScript_route "https://storage.googleapis.com/b/o" =
      .plain "https://storage.googleapis.com/b/o" ∧
    DownloadScript_route "https://commondatastorage.googleapis.com/b/o" =
      .plain "https://commondatastorage.googleapis.com/b/o" ∧
    DownloadScript_route "http://b.storage.googleapis.com/o" ≠
      .auth "http://b.storage.googleapis.com/o" ∧
    DownloadScript net0 "http://b.storage.googleapis.com/o" "/dest"
        initState =
      DownloadUrl net0 "http://b.storage.googleapis.com/o" "/dest"
        initState := by
  exact ⟨rfl, rfl, rfl, by decide, rfl⟩

/-- Claim C2 (amended): `_DownloadScript` routes
`http://bb.storage.googleapis.com/o`, `https://storage.googleapis.com/bb/o`
and `https://commondatastorage.googleapis.com/bb/o` (buckets of at least
two characters, as the bucket pattern requires) to authenticated download,
and routes every URL matching none of the recognized Google Storage forms —
including `https://example.com/script.sh`, single-character-bucket URLs
such as `http://b.storage.googleapis.com/o`, URLs with leading garbage and
URLs whose object contains a wildcard (matching is anchored to the entire
string) — to plain download. -/
theorem c2_amended_classifier (net : Network) (destDir : String) (s : RState) :
    DownloadScript_route "http://bb.storage.googleapis.com/o" =
      .auth "http://bb.storage.googleapis.com/o" ∧
    DownloadScript_route "https://storage.googleapis.com/bb/o" =
      .auth "https://storage.googleapis.com/bb/o" ∧
    DownloadScript_route "https://commondatastorage.googleapis.com/bb/o" =
      .auth "https://commondatastorage.googleapis.com/bb/o" ∧
    DownloadScript_route "https://example.com/script.sh" =
      .plain "https://example.com/script.sh" ∧
    DownloadScript_route "http://b.storage.googleapis.com/o" =
      .plain "http://b.storage.googleapis.com/o" ∧
    DownloadScript_route "Xhttps://storage.googleapis.com/bb/o" =
      .plain "Xhttps://storage.googleapis.com/bb/o" ∧
    DownloadScript_route "https://storage.googleapis.com/bb/o*" =
      .plain "https://storage.googleapis.com/bb/o*" ∧
    (∀ url : String, isPrefixList "gs://".data url.data = false →
      matchesVHost url.data = false → matchesPathStyle url.data = false →
      DownloadScript net url destDir s = DownloadUrl net url destDir s) := by
  refine ⟨rfl, rfl, rfl, rfl, rfl, rfl, rfl, ?_⟩
  intro url h1 h2 h3
  simp [DownloadScript, DownloadScript_route, h1, h2, h3]

theorem c2_amended_classifier_witness :
    DownloadScript net0 "https://example.com/script.sh" "/dest" initState =
      DownloadUrl net0 "https://example.com/script.sh" "/dest" initState :=
  (c2_amended_classifier net0 "/dest" initState).2.2.2.2.2.2.2
    "https://example.com/script.sh" (by decide) (by decide) (by decide)

theorem downloadUrl_returned (net : Network) (url destDir : String)
    (s : RState) (content : String) (c sl : Nat)
    (h : UrlRetrieveWithRetry net url = .returned content c sl) :
    DownloadUrl net url destDir s =
      (some ⟨destDir, s.tempCounter⟩,
       { s with files := (⟨destDir, s.tempCounter⟩, content) ::
                         (⟨destDir, s.tempCounter⟩, "") :: s.files,
                tempCounter := s.tempCounter + 1 }) := by
  unfold DownloadUrl mkTempFile writeFile
  rw [h]

theorem downloadUrl_raised (net : Network) (url destDir : String)
    (s : RState) (e : PyExc) (c sl : Nat)
    (h : UrlRetrieveWithRetry net url = .raised e c sl) :
    DownloadUrl net url destDir s =
      (none, { s with files := (⟨destDir, s.tempCounter⟩, "") :: s.files,
                      tempCounter := s.tempCounter + 1,
                      warnings := s.warnings + 1 }) := by
  unfold DownloadUrl mkTempFile warn
  rw [h]

theorem downloadUrl_raisedNone (net : Network) (url destDir : String)
    (s : RState) (c sl : Nat)
    (h : UrlRetrieveWithRetry net url = .raisedNone c sl) :
    DownloadUrl net url destDir s =
      (none, { s with files := (⟨destDir, s.tempCounter⟩, "") :: s.files,
                      tempCounter := s.tempCounter + 1,
                      warnings := s.warnings + 1 }) := by
  unfold DownloadUrl mkTempFile warn
  rw [h]

theorem downloadAuthUrl_fallback (net : Network) (url destDir : String)
    (s : RState) (htok : strFalsy s.token = true)
    (hresp : respFalsy (net.tokenQuery false false) = true) :
    DownloadAuthUrl net url destDir s =
      DownloadUrl net url destDir
        { s with files := (⟨destDir, s.tempCounter⟩, "") :: s.files,
                 tempCounter := s.tempCounter + 1,
                 tokenQueries := s.tokenQueries + 1 } := by
  simp [DownloadAuthUrl, mkTempFile, htok, hresp]

theorem downloadAuthUrl_token_set (net : Network) (url destDir : String)
    (s : RState) (r : List (String × String))
    (htok : strFalsy s.token = true)
    (hresp : net.tokenQuery false false = some r) (hr : r ≠ []) :
    DownloadAuthUrl net url destDir s =
      authUrlFetch net url ⟨destDir, s.tempCounter⟩
        { s with files := (⟨destDir, s.tempCounter⟩, "") :: s.files,
                 tempCounter := s.tempCounter + 1,
                 tokenQueries := s.tokenQueries + 1,
                 token := some ((lookupStr r "token_type").getD "" ++ " " ++
                   (lookupStr r "access_token").getD "") } := by
  obtain ⟨k, v, rest, rfl⟩ : ∃ k v rest, r = (k, v) :: rest := by
    cases r with
    | nil => exact absurd rfl hr
    | cons kv rest => exact ⟨kv.1, kv.2, rest, rfl⟩
  simp [DownloadAuthUrl, mkTempFile, htok, hresp, respFalsy]

theorem downloadAuthUrl_cached (net : Network) (url destDir : String)
    (s : RState) (htok : strFalsy s.token = false) :
    DownloadAuthUrl net url destDir s =
      authUrlFetch net url ⟨destDir, s.tempCounter⟩
        { s with files := (⟨destDir, s.tempCounter⟩, "") :: s.files,
                 tempCounter := s.tempCounter + 1 } := by
  simp [DownloadAuthUrl, mkTempFile, htok]

theorem authUrlFetch_state (net : Network) (url : String) (dest : Path)
    (s : RState) :
    (authUrlFetch net url dest s).2.token = s.token ∧
    (authUrlFetch net url dest s).2.tokenQueries = s.tokenQueries ∧
    (authUrlFetch net url dest s).2.tempCounter = s.tempCounter := by
  unfold authUrlFetch
  split <;> simp [writeFile, warn]

theorem path_ne_succ (d : String) (n : Nat) : (⟨d, n⟩ : Path) ≠ ⟨d, n + 1⟩ := by
  intro h
  injection h with _ h2
  omega

/-- Claim C5: when no token is cached, `_DownloadAuthUrl` queries the
metadata collaborator once with `recursive=False, retry=False`; a
null/empty response makes it fall back to plain download of the same URL;
a non-empty response makes it cache `'<token_type> <access_token>'` with
missing fields defaulting to the empty string; and with a cached token it
issues no further metadata query and keeps the token. -/
theorem c5_token_logic (net : Network) (url destDir : String) (s : RState) :
    (s.token = none → respFalsy (net.tokenQuery false false) = true →
      DownloadAuthUrl net url destDir s =
        DownloadUrl net url destDir
          { s with files := (⟨destDir, s.tempCounter⟩, "") :: s.files,
                   tempCounter := s.tempCounter + 1,
                   tokenQueries := s.tokenQueries + 1 }) ∧
    (∀ r : List (String × String), s.token = none →
      net.tokenQuery false false = some r → r ≠ [] →
      (DownloadAuthUrl net url destDir s).2.token =
        some ((lookupStr r "token_type").getD "" ++ " " ++
          (lookupStr r "access_token").getD "") ∧
      (DownloadAuthUrl net url destDir s).2.tokenQueries =
        s.tokenQueries + 1) ∧
    (∀ t : String, s.token = some t → t ≠ "" →
      (DownloadAuthUrl net url destDir s).2.token = some t ∧
      (DownloadAuthUrl net url destDir s).2.tokenQueries = s.tokenQueries) := by
  refine ⟨?_, ?_, ?_⟩
  · intro h1 h2
    exact downloadAuthUrl_fallback net url destDir s (by rw [h1]; rfl) h2
  · intro r h1 hq hr
    rw [downloadAuthUrl_token_set net url destDir s r (by rw [h1]; rfl) hq hr]
    refine ⟨(authUrlFetch_state net url _ _).1.trans rfl,
      (authUrlFetch_state net url _ _).2.1.trans rfl⟩
  · intro t h1 ht
    have hf : strFalsy s.token = false := by
      rw [h1]
      simp [strFalsy, ht]
    rw [downloadAuthUrl_cached net url destDir s hf]
    refine ⟨(authUrlFetch_state net url _ _).1.trans (by rw [h1]),
      (authUrlFetch_state net url _ _).2.1.trans rfl⟩

theorem c5_token_logic_witness :
    DownloadAuthUrl net0 "https://storage.googleapis.com/bkt/obj" "/dest"
        initState =
      DownloadUrl net0 "https://storage.googleapis.com/bkt/obj" "/dest"
        { initState with files := [(⟨"/dest", 0⟩, "")], tempCounter := 1,
                         tokenQueries := 1 } ∧
    (DownloadAuthUrl netOk "https://storage.googleapis.com/bkt/obj" "/dest"
        initState).2.token = some "Bearer ya29.tok" ∧
    (DownloadAuthUrl netOk "https://storage.googleapis.com/bkt/obj" "/dest"
        initState).2.tokenQueries = 1 := by
  have h2 := (c5_token_logic netOk "https://storage.googleapis.com/bkt/obj"
    "/dest" initState).2.1
    [("access_token", "ya29.tok"), ("expires_in", "3599"),
     ("token_type", "Bearer")] rfl rfl (by decide)
  exact ⟨(c5_token_logic net0 "https://storage.googleapis.com/bkt/obj"
      "/dest" initState).1 rfl rfl,
    h2.1.trans (by decide), h2.2⟩

/-- Claim C6: `_DownloadUrl` and `_DownloadAuthUrl` return a file path on a
successful fetch and a null result on any exception raised by the network
fetch, including exhaustion of the retry primitive; the exception is
absorbed inside the function (logged as a warning) rather than raised to
the caller. -/
theorem c6_no_raise (net : Network) (url destDir : String) (s : RState) :
    (∀ content c sl,
      UrlRetrieveWithRetry net url = .returned content c sl →
      DownloadUrl net url destDir s =
        (some ⟨destDir, s.tempCounter⟩,
         { s with files := (⟨destDir, s.tempCounter⟩, content) ::
                           (⟨destDir, s.tempCounter⟩, "") :: s.files,
                  tempCounter := s.tempCounter + 1 })) ∧
    (∀ e c sl, UrlRetrieveWithRetry net url = .raised e c sl →
      (DownloadUrl net url destDir s).1 = none ∧
      (DownloadUrl net url destDir s).2.warnings = s.warnings + 1) ∧
    (∀ c sl, UrlRetrieveWithRetry net url = .raisedNone c sl →
      (DownloadUrl net url destDir s).1 = none ∧
      (DownloadUrl net url destDir s).2.warnings = s.warnings + 1) ∧
    (strFalsy s.token = false →
      (∀ content c sl, UrlOpenWithRetry net url = .returned content c sl →
        (DownloadAuthUrl net url destDir s).1 =
          some ⟨destDir, s.tempCounter⟩) ∧
      (∀ e c sl, UrlOpenWithRetry net url = .raised e c sl →
        (DownloadAuthUrl net url destDir s).1 = none ∧
        (DownloadAuthUrl net url destDir s).2.warnings = s.warnings + 1) ∧
      (∀ c sl, UrlOpenWithRetry net url = .raisedNone c sl →
        (DownloadAuthUrl net url destDir s).1 = none)) ∧
    (∀ r : List (String × String), s.token = none →
      net.tokenQuery false false = some r → r ≠ [] →
      ∀ e c sl, UrlOpenWithRetry net url = .raised e c sl →
        (DownloadAuthUrl net url destDir s).1 = none) := by
  refine ⟨?_, ?_, ?_, ?_, ?_⟩
  · intro content c sl h
    exact downloadUrl_returned net url destDir s content c sl h
  · intro e c sl h
    rw [downloadUrl_raised net url destDir s e c sl h]
    exact ⟨rfl, rfl⟩
  · intro c sl h
    rw [downloadUrl_raisedNone net url destDir s c sl h]
    exact ⟨rfl, rfl⟩
  · intro htok
    rw [downloadAuthUrl_cached net url destDir s htok]
    refine ⟨?_, ?_, ?_⟩
    · intro content c sl h
      simp [authUrlFetch, h, writeFile]
    · intro e c sl h
      simp [authUrlFetch, h, warn]
    · intro c sl h
      simp [authUrlFetch, h, warn]
  · intro r h1 hq hr e c sl h
    rw [downloadAuthUrl_token_set net url destDir s r (by rw [h1]; rfl)
      hq hr]
    simp [authUrlFetch, h, warn]

theorem c6_no_raise_witness :
    DownloadUrl netOk "https://example.com/script.sh" "/dest" initState =
      (some ⟨"/dest", 0⟩,
       { initState with
           files := [(⟨"/dest", 0⟩, "echo remote"), (⟨"/dest", 0⟩, "")],
           tempCounter := 1 }) ∧
    (DownloadUrl net0 "https://example.com/script.sh" "/dest"
      initState).1 = none ∧
    (DownloadUrl net0 "https://example.com/script.sh" "/dest"
      initState).2.warnings = 1 ∧
    (DownloadAuthUrl net0 "https://storage.googleapis.com/bkt/obj" "/dest"
      { initState with token := some "Bearer ya29.tok" }).1 = none := by
  have hfail := (c6_no_raise net0 "https://example.com/script.sh" "/dest"
    initState).2.1 (.urlError "unreachable") 3 15 rfl
  refine ⟨(c6_no_raise netOk "https://example.com/script.sh" "/dest"
      initState).1 "echo remote" 1 0 rfl,
    hfail.1, hfail.2, ?_⟩
  exact (((c6_no_raise net0 "https://storage.googleapis.com/bkt/obj" "/dest"
    { initState with token := some "Bearer ya29.tok" }).2.2.2.1
    (by decide)).2.1 (.urlError "unreachable") 3 15 rfl).1

/-- Claim C10: when `_DownloadAuthUrl` obtains no token and falls back to
plain download, the temp file reserved at entry (index `s.tempCounter`) is
abandoned: it stays on disk with empty content, the fallback reserves a
second temp file (index `s.tempCounter + 1`) in the same directory, and the
path returned on success is the second file's, never the first's. -/
theorem c10_abandoned_reservation (net : Network) (url destDir : String)
    (s : RState) (htok : s.token = none)
    (hresp : respFalsy (net.tokenQuery false false) = true) :
    lookupFile (DownloadAuthUrl net url destDir s).2.files
      ⟨destDir, s.tempCounter⟩ = some "" ∧
    ((DownloadAuthUrl net url destDir s).1 = none ∨
     (DownloadAuthUrl net url destDir s).1 =
       some ⟨destDir, s.tempCounter + 1⟩) ∧
    (DownloadAuthUrl net url destDir s).1 ≠
      some ⟨destDir, s.tempCounter⟩ := by
  rw [downloadAuthUrl_fallback net url destDir s (by rw [htok]; rfl) hresp]
  rcases hrun : UrlRetrieveWithRetry net url with
    ⟨content, c, sl⟩ | ⟨e, c, sl⟩ | ⟨c, sl⟩
  · rw [downloadUrl_returned net url destDir _ content c sl hrun]
    refine ⟨?_, Or.inr rfl, ?_⟩
    · simp [lookupFile, path_ne_succ destDir s.tempCounter]
    · intro h
      exact path_ne_succ destDir s.tempCounter (Option.some.inj h).symm
  · rw [downloadUrl_raised net url destDir _ e c sl hrun]
    refine ⟨?_, Or.inl rfl, by simp⟩
    simp [lookupFile, path_ne_succ destDir s.tempCounter]
  · rw [downloadUrl_raisedNone net url destDir _ c sl hrun]
    refine ⟨?_, Or.inl rfl, by simp⟩
    simp [lookupFile, path_ne_succ destDir s.tempCounter]

theorem c10_abandoned_reservation_witness :
    lookupFile (DownloadAuthUrl netOk0 "https://example.com/script.sh"
        "/dest" initState).2.files ⟨"/dest", 0⟩ = some "" ∧
    ((DownloadAuthUrl netOk0 "https://example.com/script.sh" "/dest"
        initState).1 = none ∨
     (DownloadAuthUrl netOk0 "https://example.com/script.sh" "/dest"
        initState).1 = some ⟨"/dest", 1⟩) ∧
    (DownloadAuthUrl netOk0 "https://example.com/script.sh" "/dest"
        initState).1 ≠ some ⟨"/dest", 0⟩ :=
  c10_abandoned_reservation netOk0 "https://example.com/script.sh" "/dest"
    initState rfl rfl

theorem downloadUrl_lookup_lt (net : Network) (url destDir : String)
    (s : RState) (p : Path) (h : p.idx < s.tempCounter) :
    lookupFile (DownloadUrl net url destDir s).2.files p =
      lookupFile s.files p := by
  have hne : p ≠ (⟨destDir, s.tempCounter⟩ : Path) := by
    intro hc
    rw [hc] at h
    exact absurd h (Nat.lt_irrefl _)
  rcases hrun : UrlRetrieveWithRetry net url with
    ⟨content, c, sl⟩ | ⟨e, c, sl⟩ | ⟨c, sl⟩
  · rw [downloadUrl_returned net url destDir s content c sl hrun]
    simp [lookupFile, hne]
  · rw [downloadUrl_raised net url destDir s e c sl hrun]
    simp [lookupFile, hne]
  · rw [downloadUrl_raisedNone net url destDir s c sl hrun]
    simp [lookupFile, hne]

theorem downloadAuthUrl_lookup_lt (net : Network) (url destDir : String)
    (s : RState) (p : Path) (h : p.idx < s.tempCounter) :
    lookupFile (DownloadAuthUrl net url destDir s).2.files p =
      lookupFile s.files p := by
  have hne : p ≠ (⟨destDir, s.tempCounter⟩ : Path) := by
    intro hc
    rw [hc] at h
    exact absurd h (Nat.lt_irrefl _)
  cases htok : strFalsy s.token
  · rw [downloadAuthUrl_cached net url destDir s htok]
    rcases hrun : UrlOpenWithRetry net url with
      ⟨content, c, sl⟩ | ⟨e, c, sl⟩ | ⟨c, sl⟩ <;>
      simp [authUrlFetch, hrun, writeFile, warn, lookupFile, hne]
  · rcases hq : net.tokenQuery false false with _ | r
    · rw [downloadAuthUrl_fallback net url destDir s htok (by rw [hq]; rfl)]
      rw [downloadUrl_lookup_lt net url destDir _ p
        (Nat.lt_succ_of_lt h)]
      simp [lookupFile, hne]
    · cases r with
      | nil =>
        rw [downloadAuthUrl_fallback net url destDir s htok
          (by rw [hq]; rfl)]
        rw [downloadUrl_lookup_lt net url destDir _ p
          (Nat.lt_succ_of_lt h)]
        simp [lookupFile, hne]
      | cons kv rest =>
        rw [downloadAuthUrl_token_set net url destDir s (kv :: rest) htok hq
          (by simp)]
        rcases hrun : UrlOpenWithRetry net url with
          ⟨content, c, sl⟩ | ⟨e, c, sl⟩ | ⟨c, sl⟩ <;>
          simp [authUrlFetch, hrun, writeFile, warn, lookupFile, hne]

theorem downloadScript_lookup_lt (net : Network) (url destDir : String)
    (s : RState) (p : Path) (h : p.idx < s.tempCounter) :
    lookupFile (DownloadScript net url destDir s).2.files p =
      lookupFile s.files p := by
  unfold DownloadScript
  cases DownloadScript_route url with
  | auth u => exact downloadAuthUrl_lookup_lt net u destDir s p h
  | plain u => exact downloadUrl_lookup_lt net u destDir s p h

/-- Claim C7: when the attributes carry a non-empty `<type>-script-url`
whose download fails (the download function returns `none`), the result
mapping of `_GetAttributeScripts` contains the key `<type>-script-url` with
a null value: the key is present even though the value is null. -/
theorem c7_failed_download_key (net : Network) (ty destDir : String)
    (attrs : List (String × String)) (url : String) (s : RState)
    (hu : lookupStr attrs (ty ++ "-script-url") = some url)
    (hne : url ≠ "")
    (hfail : ∀ st : RState, (DownloadScript net url destDir st).1 = none) :
    (ty ++ "-script-url", (none : Option Path)) ∈
      (GetAttributeScripts net ty (some attrs) destDir s).1 := by
  unfold GetAttributeScripts
  rcases h1 : lookupStr attrs (ty ++ "-script") with _ | v
  · simp [h1, hu, hne, hfail]
  · by_cases hv : v = ""
    · subst hv
      simp [h1, hu, hne, hfail]
    · simp [h1, hv, hu, hne, hfail, mkTempFile]

/-- Claim C8: a non-empty inline `<type>-script` value is left-stripped and
written to a fresh temp file in the destination directory, and the result
mapping records the key `<type>-script` with that file's path. -/
theorem c8_inline_staged (net : Network) (ty destDir : String)
    (attrs : List (String × String)) (v : String) (s : RState)
    (hv : lookupStr attrs (ty ++ "-script") = some v) (hne : v ≠ "") :
    ((ty ++ "-script"), some (⟨destDir, s.tempCounter⟩ : Path)) ∈
      (GetAttributeScripts net ty (some attrs) destDir s).1 ∧
    lookupFile (GetAttributeScripts net ty (some attrs) destDir s).2.files
      ⟨destDir, s.tempCounter⟩ = some (lstrip v) := by
  unfold GetAttributeScripts
  rcases h2 : lookupStr attrs (ty ++ "-script-url") with _ | u
  · simp [hv, hne, h2, mkTempFile, lookupFile]
  · by_cases hu : u = ""
    · subst hu
      simp [hv, hne, h2, mkTempFile, lookupFile]
    · rcases hds : DownloadScript net u destDir
        { s with files := (⟨destDir, s.tempCounter⟩, lstrip v) :: s.files,
                 tempCounter := s.tempCounter + 1 } with ⟨r, s2⟩
      have hlk := downloadScript_lookup_lt net u destDir
        { s with files := (⟨destDir, s.tempCounter⟩, lstrip v) :: s.files,
                 tempCounter := s.tempCounter + 1 }
        ⟨destDir, s.tempCounter⟩ (Nat.lt_succ_self _)
      rw [hds] at hlk
      have hlk2 : lookupFile s2.files ⟨destDir, s.tempCounter⟩ =
          some (lstrip v) := by
        rw [hlk]
        simp [lookupFile]
      cases r <;>
        simp [hv, hne, h2, hu, mkTempFile, hds, warn, hlk2, lookupFile]

theorem c7_failed_download_key_witness :
    ("startup-script-url", (none : Option Path)) ∈
      (GetAttributeScripts net0 "startup"
        (some [("startup-script-url", "https://bad.invalid/x")]) "/dest"
        initState).1 :=
  c7_failed_download_key net0 "startup" "/dest"
    [("startup-script-url", "https://bad.invalid/x")]
    "https://bad.invalid/x" initState (by decide) (by decide)
    (fun _ => rfl)

theorem c8_inline_staged_witness :
    ("startup-script", some (⟨"/dest", 0⟩ : Path)) ∈
      (GetAttributeScripts net0 "startup"
        (some [("startup-script", "  echo hi")]) "/dest" initState).1 ∧
    lookupFile (GetAttributeScripts net0 "startup"
        (some [("startup-script", "  echo hi")]) "/dest" initState).2.files
      ⟨"/dest", 0⟩ = some "echo hi" := by
  have h := c8_inline_staged net0 "startup" "/dest"
    [("startup-script", "  echo hi")] "  echo hi" initState (by decide)
    (by decide)
  exact ⟨h.1, h.2.trans (by decide)⟩

/-- A metadata tree whose instance attributes declare an inline startup
script and whose project attributes declare a different one. -/
def treeA : Option MetadataTree :=
  some ⟨some ⟨some [("startup-script", "echo instance")]⟩,
        some ⟨some [("startup-script", "echo project")]⟩⟩

/-- A metadata tree whose instance attributes are non-empty but declare no
startup script, while the project attributes declare one. -/
def treeB : Option MetadataTree :=
  some ⟨some ⟨some [("other-key", "x")]⟩,
        some ⟨some [("startup-script", "echo hi")]⟩⟩

theorem getScripts_eq (net : Network) (tree : Option MetadataTree)
    (ty destDir : String) (s : RState) :
    GetScripts net tree ty destDir s =
      (if (GetAttributeScripts net ty (instAttrs tree) destDir
            (attrWarn (projAttrs tree)
              (attrWarn (instAttrs tree) s))).1.isEmpty
       then GetAttributeScripts net ty (projAttrs tree) destDir
            (GetAttributeScripts net ty (instAttrs tree) destDir
              (attrWarn (projAttrs tree) (attrWarn (instAttrs tree) s))).2
       else GetAttributeScripts net ty (instAttrs tree) destDir
            (attrWarn (projAttrs tree) (attrWarn (instAttrs tree) s))) :=
  rfl

/-- Claim C1: `GetScripts` computes the instance-level script mapping
first and returns it (mapping and state) whenever it is non-empty; only
when it is empty does it go on to compute and return the project-level
mapping, starting from the state the instance-level computation left
behind.  The two mappings are never merged. -/
theorem c1_instance_shadows (net : Network) (tree : Option MetadataTree)
    (ty destDir : String) (s : RState) :
    ((GetAttributeScripts net ty (instAttrs tree) destDir
        (attrWarn (projAttrs tree) (attrWarn (instAttrs tree) s))).1 ≠ [] →
      GetScripts net tree ty destDir s =
        GetAttributeScripts net ty (instAttrs tree) destDir
          (attrWarn (projAttrs tree) (attrWarn (instAttrs tree) s))) ∧
    ((GetAttributeScripts net ty (instAttrs tree) destDir
        (attrWarn (projAttrs tree) (attrWarn (instAttrs tree) s))).1 = [] →
      GetScripts net tree ty destDir s =
        GetAttributeScripts net ty (projAttrs tree) destDir
          (GetAttributeScripts net ty (instAttrs tree) destDir
            (attrWarn (projAttrs tree) (attrWarn (instAttrs tree) s))).2) := by
  rw [getScripts_eq]
  rcases hga : GetAttributeScripts net ty (instAttrs tree) destDir
    (attrWarn (projAttrs tree) (attrWarn (instAttrs tree) s)) with ⟨d1, s1⟩
  constructor
  · intro hne
    cases d1 with
    | nil => exact absurd rfl hne
    | cons x l => simp
  · intro heq
    have hd : d1 = [] := heq
    subst hd
    simp

theorem c1_instance_shadows_witness :
    GetScripts net0 treeA "startup" "/dest" initState =
      GetAttributeScripts net0 "startup" (instAttrs treeA) "/dest"
        (attrWarn (projAttrs treeA) (attrWarn (instAttrs treeA) initState)) :=
  (c1_instance_shadows net0 treeA "startup" "/dest" initState).1 (by decide)

/-- Claim C9 counterexample: `treeB` has a non-empty instance attributes
mapping (it holds `other-key`), yet because that mapping declares no
startup script, `GetScripts` falls through to the project attributes and
returns the project-derived mapping — project attributes are not ignored. -/
theorem c9_counterexample :
    instAttrs treeB = some [("other-key", "x")] ∧
    lookupStr [("other-key", "x")] "startup-script" = none ∧
    lookupStr [("other-key", "x")] "startup-script-url" = none ∧
    (GetScripts net0 treeB "startup" "/dest" initState).1 =
      [("startup-script", some ⟨"/dest", 0⟩)] := by
  refine ⟨rfl, by decide, by decide, by decide⟩

/-- Replace the project attributes of a tree, keeping its instance level. -/
def withProjectAttrs (tree : Option MetadataTree)
    (a : List (String × String)) : Option MetadataTree :=
  some ⟨(tree.getD ⟨none, none⟩).instanceLevel, some ⟨some a⟩⟩

/-- Claim C9 (amended): whenever the instance attributes yield a non-empty
script mapping, `GetScripts` returns exactly that instance-derived mapping,
and its result is identical for any two choices of project attributes:
project attributes are ignored. -/
theorem c9_amended_project_ignored (net : Network)
    (tree : Option MetadataTree) (a b : List (String × String))
    (ty destDir : String) (s : RState)
    (h : (GetAttributeScripts net ty (instAttrs tree) destDir
        (attrWarn (instAttrs tree) s)).1 ≠ []) :
    GetScripts net (withProjectAttrs tree a) ty destDir s =
      GetAttributeScripts net ty (instAttrs tree) destDir
        (attrWarn (instAttrs tree) s) ∧
    GetScripts net (withProjectAttrs tree a) ty destDir s =
      GetScripts net (withProjectAttrs tree b) ty destDir s := by
  have key : ∀ c : List (String × String),
      GetScripts net (withProjectAttrs tree c) ty destDir s =
        GetAttributeScripts net ty (instAttrs tree) destDir
          (attrWarn (instAttrs tree) s) := by
    intro c
    have hi : instAttrs (withProjectAttrs tree c) = instAttrs tree := rfl
    have hp : projAttrs (withProjectAttrs tree c) = some c := rfl
    have houter : attrWarn (some c) (attrWarn (instAttrs tree) s) =
        attrWarn (instAttrs tree) s := rfl
    rw [getScripts_eq, hi, hp, houter]
    rcases hga : GetAttributeScripts net ty (instAttrs tree) destDir
      (attrWarn (instAttrs tree) s) with ⟨d1, s1⟩
    rw [hga] at h
    cases d1 with
    | nil => exact absurd rfl h
    | cons x l => simp
  exact ⟨key a, (key a).trans (key b).symm⟩

theorem c9_amended_project_ignored_witness :
    GetScripts net0 (withProjectAttrs treeA [("startup-script", "echo b")])
        "startup" "/dest" initState =
      GetAttributeScripts net0 "startup" (instAttrs treeA) "/dest"
        (attrWarn (instAttrs treeA) initState) ∧
    GetScripts net0 (withProjectAttrs treeA [("startup-script", "echo b")])
        "startup" "/dest" initState =
      GetScripts net0 (withProjectAttrs treeA []) "startup" "/dest"
        initState :=
  c9_amended_project_ignored net0 treeA [("startup-script", "echo b")] []
    "startup" "/dest" initState (by decide)

end ScriptRetriever
